import Mathlib

/-!
Shallow embedding of the tinykvm vCPU run loop (src/lib/tinykvm/vcpu_run.cpp)
and the Machine address-space helpers (src/lib/tinykvm/machine.hpp).

Machine integers are modelled as Nat with explicit reduction modulo 2^64
(resp. 2^32) wherever the C++ source computes in uint64_t (resp. uint32_t)
and overflow could matter.  The KVM exit-reason numbers and errno values are
the fixed constants of the Linux ABI (linux/kvm.h, errno.h), which the source
includes as system headers.
-/

namespace TinyKVM

/-- Exit-reason constants from linux/kvm.h. -/
def KVM_EXIT_UNKNOWN : Nat := 0

/-- Numeric value of the KVM exit reason for port I/O (linux/kvm.h). -/
def KVM_EXIT_IO_NR : Nat := 2

/-- Exit-reason constant KVM_EXIT_DEBUG from linux/kvm.h. -/
def KVM_EXIT_DEBUG : Nat := 4

/-- Exit-reason constant KVM_EXIT_HLT from linux/kvm.h. -/
def KVM_EXIT_HLT : Nat := 5

/-- Exit-reason constant KVM_EXIT_MMIO from linux/kvm.h. -/
def KVM_EXIT_MMIO : Nat := 6

/-- Exit-reason constant KVM_EXIT_SHUTDOWN from linux/kvm.h. -/
def KVM_EXIT_SHUTDOWN : Nat := 8

/-- Exit-reason constant KVM_EXIT_FAIL_ENTRY from linux/kvm.h. -/
def KVM_EXIT_FAIL_ENTRY : Nat := 9

/-- Exit-reason constant KVM_EXIT_INTERNAL_ERROR from linux/kvm.h. -/
def KVM_EXIT_INTERNAL_ERROR : Nat := 17

/-- Direction constant KVM_EXIT_IO_OUT from linux/kvm.h (IN is 0). -/
def KVM_EXIT_IO_OUT : Nat := 1

/-- The errno value EINTR (errno.h). -/
def EINTR : Nat := 4

/-- Wrap-around modulus of uint64_t. -/
def U64_MOD : Nat := 2 ^ 64

/-- Wrap-around modulus of uint32_t. -/
def U32_MOD : Nat := 2 ^ 32

/-- Modelled from the spec: page-table entry bit PDE64_RW comes from
amd64/amd64.hpp, which is not under src/; the standard x86-64 write bit is
bit 1.  No claim depends on the numeric value, only on which flag expression
is passed to get_writable_page. -/
def PDE64_RW : Nat := 2

/-- Modelled from the spec: page-table entry bit PDE64_USER comes from
amd64/amd64.hpp, which is not under src/; the standard x86-64 user bit is
bit 2.  No claim depends on the numeric value. -/
def PDE64_USER : Nat := 4

/-- Machine::BRK_MAX from machine.hpp: static constexpr uint64_t BRK_MAX = 0x100000. -/
def BRK_MAX : Nat := 0x100000

/-- Modelled from the spec: the fixed guest-memory layout constants GDT_ADDR,
IDT_ADDR and INTR_ASM_ADDR live in amd64/memory_layout.hpp, which is not under
src/.  The spec fixes only that they are offsets of the kernel region at low
guest physical addresses, so the embedding keeps them as parameters; every
theorem quantifies over them. -/
structure MemoryLayout where
  GDT_ADDR : Nat
  IDT_ADDR : Nat
  INTR_ASM_ADDR : Nat
deriving DecidableEq

/-- The fields of the Machine (machine.hpp) that the run loop reads:
memory.page_tables (the page-table root), memory.physbase,
m_remote_base_address (initialised to ~uint64_t(0)) and m_heap_address. -/
structure MachineDesc where
  page_tables : Nat
  physbase : Nat
  m_remote_base_address : Nat
  m_heap_address : Nat
deriving DecidableEq

/-- Machine::is_remote_access from machine.hpp line 201:
addr >= m_remote_base_address. -/
def MachineDesc.is_remote_access (m : MachineDesc) (addr : Nat) : Bool :=
  decide (m.m_remote_base_address ≤ addr)

/-- Machine::heap_address accessor from machine.hpp line 133. -/
def MachineDesc.heap_address (m : MachineDesc) : Nat :=
  m.m_heap_address

/-- Machine::mmap_start from machine.hpp line 146:
m_heap_address + BRK_MAX in uint64_t arithmetic. -/
def MachineDesc.mmap_start (m : MachineDesc) : Nat :=
  (m.m_heap_address + BRK_MAX) % U64_MOD

/-- The special registers the run loop reads from kvm_sregs: cr3, gdt.base,
idt.base, cs.dpl, ss.dpl. -/
structure KvmSregs where
  cr3 : Nat
  gdt_base : Nat
  idt_base : Nat
  cs_dpl : Nat
  ss_dpl : Nat
deriving DecidableEq

/-- The general registers the run loop reads: rdi and rip. -/
structure KvmRegs where
  rdi : Nat
  rip : Nat
deriving DecidableEq

/-- The fields of the kvm_run structure the run loop reads: exit_reason, the
io substructure (direction, port and the 32-bit payload at data_offset), and
mmio.phys_addr. -/
structure KvmRunData where
  exit_reason : Nat
  io_direction : Nat
  io_port : Nat
  io_data : Nat
  mmio_phys_addr : Nat
deriving DecidableEq

/-- One observation of the environment for a single KVM_RUN ioctl: the ioctl
return value and errno, whether the SIGUSR2 handler ran since the previous
iteration (it sets the thread-local timer_was_triggered), and the kvm_run,
sregs and regs contents visible after the exit. -/
structure StepInput where
  ioctl : Int
  errno : Nat
  signal : Bool
  kvm_run : KvmRunData
  sregs : KvmSregs
  regs : KvmRegs
deriving DecidableEq

/-- The mutable vCPU state the run loop touches: the stopped flag, the
armed software deadline timer_ticks, the thread-local timer_was_triggered
flag, and whether the POSIX interval timer of this vCPU is currently armed
(set by timer_settime in run, cleared by timer_settime in disable_timer). -/
structure VCpuState where
  stopped : Bool
  timer_ticks : Nat
  timer_was_triggered : Bool
  hw_timer_armed : Bool
deriving DecidableEq

/-- External calls the run loop makes, recorded in program order. -/
inductive Effect where
  | systemCall (no : Nat)
  | handleRemoteCall (arg : Nat)
  | getWritablePage (addr : Nat) (flags : Nat) (zero : Bool)
  | onBreakpoint
  | handleException (intr : Nat)
  | onOutput (port : Nat) (data : Nat)
  | onInput (port : Nat) (data : Nat)
  | printRegisters
deriving DecidableEq

/-- The result of one run_once call: a returned long, or a thrown
machine_exception (message, numeric data) or timeout_exception
(message, ticks). -/
inductive RunOutcome where
  | ret (val : Nat)
  | machineException (msg : String) (data : Nat)
  | timeoutException (msg : String) (ticks : Nat)
deriving DecidableEq

/-- The host callbacks the run loop may invoke and whose only influence on
the run loop is through the vCPU's stopped flag: Machine::system_call,
m_on_output and m_on_input (each may call stop()).  A callback maps its
arguments and the stopped flag before the call to the stopped flag after. -/
structure Handlers where
  system_call : Nat → Bool → Bool
  on_output : Nat → Nat → Bool → Bool
  on_input : Nat → Nat → Bool → Bool

/-- Modelled from the spec: amd64_exception_name comes from amd64/amd64.hpp,
not under src/; it returns the standard x86-64 exception vector name.  No
claim depends on the strings. -/
def amd64_exception_name (intr : Nat) : String :=
  (["Division by zero", "Debug", "NMI", "Breakpoint", "Overflow",
    "Bound range exceeded", "Invalid opcode", "Device not available",
    "Double fault", "Reserved", "Invalid TSS", "Segment not present",
    "Stack-segment fault", "General protection fault", "Page fault",
    "Reserved", "x87 floating-point exception", "Alignment check",
    "Machine check", "SIMD floating-point exception"]).getD intr
    "Unknown exception"

/-- The KVM_EXIT_IO arm of the switch in vCPU::run_once
(vcpu_run.cpp lines 140 to 213). -/
def dispatch_io (layout : MemoryLayout) (mach : MachineDesc) (hnd : Handlers)
    (inp : StepInput) (st : VCpuState) : RunOutcome × VCpuState × List Effect :=
  if inp.kvm_run.io_direction = KVM_EXIT_IO_OUT then
    if inp.kvm_run.io_port = 0 then
      let intr := inp.kvm_run.io_data % U32_MOD
      if intr ≠ 0xFFFF then
        let st2 := { st with stopped := hnd.system_call intr st.stopped }
        if st2.stopped = true then (.ret 0, st2, [.systemCall intr])
        else (.ret KVM_EXIT_IO_NR, st2, [.systemCall intr])
      else
        (.ret 0, { st with stopped := true }, [])
    else if 0x80 ≤ inp.kvm_run.io_port ∧ inp.kvm_run.io_port < 0x100 then
      let intr := inp.kvm_run.io_port - 0x80
      if intr = 14 then
        let addr := inp.regs.rdi &&& 0x7FFFFFFFFFFFF000
        if (mach.physbase + layout.INTR_ASM_ADDR + 0x1000) % U64_MOD ≤ inp.regs.rip
            ∨ inp.sregs.cs_dpl ≠ 0 ∨ inp.sregs.ss_dpl ≠ 0 then
          (.machineException "Security violation" intr, st, [])
        else if mach.is_remote_access addr = true then
          (.ret KVM_EXIT_IO_NR, st,
            [.handleRemoteCall (inp.regs.rdi &&& 0x7FFFFFFFFFFFFFFF)])
        else
          (.ret KVM_EXIT_IO_NR, st,
            [.getWritablePage addr (PDE64_USER ||| PDE64_RW) false])
      else if intr = 1 then
        (.ret KVM_EXIT_IO_NR, st, [.onBreakpoint])
      else
        (.machineException (amd64_exception_name intr) intr, st,
          [.handleException intr])
    else
      let data := inp.kvm_run.io_data % U32_MOD
      let st2 := { st with stopped := hnd.on_output inp.kvm_run.io_port data st.stopped }
      if st2.stopped = true then (.ret 0, st2, [.onOutput inp.kvm_run.io_port data])
      else (.ret KVM_EXIT_IO_NR, st2, [.onOutput inp.kvm_run.io_port data])
  else
    let data := inp.kvm_run.io_data % U32_MOD
    let st2 := { st with stopped := hnd.on_input inp.kvm_run.io_port data st.stopped }
    if st2.stopped = true then (.ret 0, st2, [.onInput inp.kvm_run.io_port data])
    else (.ret KVM_EXIT_IO_NR, st2, [.onInput inp.kvm_run.io_port data])

/-- The switch over kvm_run->exit_reason in vCPU::run_once
(vcpu_run.cpp lines 127 to 232). -/
def dispatch_exit (layout : MemoryLayout) (mach : MachineDesc) (hnd : Handlers)
    (inp : StepInput) (st : VCpuState) : RunOutcome × VCpuState × List Effect :=
  if inp.kvm_run.exit_reason = KVM_EXIT_HLT then
    (.machineException "Halt from kernel space" 5, st, [])
  else if inp.kvm_run.exit_reason = KVM_EXIT_DEBUG then
    (.ret KVM_EXIT_DEBUG, st, [])
  else if inp.kvm_run.exit_reason = KVM_EXIT_FAIL_ENTRY then
    (.machineException "Failed to start guest! Misconfigured?" KVM_EXIT_FAIL_ENTRY, st, [])
  else if inp.kvm_run.exit_reason = KVM_EXIT_SHUTDOWN then
    (.machineException "Shutdown! Triple fault?" 32, st, [])
  else if inp.kvm_run.exit_reason = KVM_EXIT_IO_NR then
    dispatch_io layout mach hnd inp st
  else if inp.kvm_run.exit_reason = KVM_EXIT_MMIO then
    (.machineException "Memory write outside physical memory (out of memory?)"
      inp.kvm_run.mmio_phys_addr, st, [])
  else if inp.kvm_run.exit_reason = KVM_EXIT_INTERNAL_ERROR then
    (.machineException "KVM internal error" 0, st, [])
  else
    (.machineException "Unexpected KVM exit reason" inp.kvm_run.exit_reason, st, [])

/-- vCPU::run_once (vcpu_run.cpp lines 88 to 233): one KVM_RUN ioctl followed
by the timeout checks, the kernel-integrity check, and the exit dispatch. -/
def run_once (layout : MemoryLayout) (mach : MachineDesc) (hnd : Handlers)
    (inp : StepInput) (st : VCpuState) : RunOutcome × VCpuState × List Effect :=
  if inp.ioctl < 0 then
    if st.timer_ticks ≠ 0 then
      (.timeoutException "Timeout Exception" st.timer_ticks, st, [])
    else if inp.errno = EINTR then
      (.ret KVM_EXIT_UNKNOWN, st, [])
    else
      (.machineException "KVM_RUN failed" 0, st, [])
  else if st.timer_ticks ≠ 0 ∧ st.timer_was_triggered = true then
    (.timeoutException "Timeout Exception" st.timer_ticks, st, [])
  else if inp.sregs.cr3 ≠ mach.page_tables
      ∨ inp.sregs.gdt_base ≠ (mach.physbase + layout.GDT_ADDR) % U64_MOD
      ∨ inp.sregs.idt_base ≠ (mach.physbase + layout.IDT_ADDR) % U64_MOD then
    (.machineException "Kernel integrity loss detected" 0, st, [.printRegisters])
  else
    dispatch_exit layout mach hnd inp st

/-- How the loop while(run_once()) of vCPU::run terminated: run_once returned
zero (the while condition became false), or an exception propagated. -/
inductive RunExit where
  | completed
  | excMachine (msg : String) (data : Nat)
  | excTimeout (msg : String) (ticks : Nat)
deriving DecidableEq

/-- The loop while(run_once()) of vCPU::run (vcpu_run.cpp line 66), driven by
a finite list of environment observations.  Before each iteration the
asynchronous SIGUSR2 handler may set the thread-local flag (inp.signal).
Returns none when the observation list is exhausted before the loop exits. -/
def runLoop (layout : MemoryLayout) (mach : MachineDesc) (hnd : Handlers) :
    List StepInput → VCpuState → Option (RunExit × VCpuState)
  | [], _ => none
  | inp :: rest, st =>
    let st1 := { st with timer_was_triggered := st.timer_was_triggered || inp.signal }
    match run_once layout mach hnd inp st1 with
    | (.ret 0, st2, _) => some (.completed, st2)
    | (.ret (_ + 1), st2, _) => runLoop layout mach hnd rest st2
    | (.machineException m d, st2, _) => some (.excMachine m d, st2)
    | (.timeoutException m t, st2, _) => some (.excTimeout m t, st2)

/-- vCPU::disable_timer (vcpu_run.cpp lines 74 to 86): clear the thread-local
flag, and when timer_ticks is nonzero zero it and disarm the POSIX timer. -/
def disable_timer (st : VCpuState) : VCpuState :=
  let st1 := { st with timer_was_triggered := false }
  if st1.timer_ticks ≠ 0 then
    { st1 with timer_ticks := 0, hw_timer_armed := false }
  else st1

/-- vCPU::run (vcpu_run.cpp lines 34 to 73): clear the flag, set timer_ticks,
arm the POSIX timer when ticks is nonzero, clear stopped, loop run_once, and
disarm the timer both on the catch-all path and on normal completion. -/
def run (layout : MemoryLayout) (mach : MachineDesc) (hnd : Handlers)
    (ticks : Nat) (steps : List StepInput) (st0 : VCpuState) :
    Option (RunExit × VCpuState) :=
  let st1 : VCpuState :=
    { st0 with timer_was_triggered := false, timer_ticks := ticks,
               hw_timer_armed := if ticks ≠ 0 then true else st0.hw_timer_armed }
  match runLoop layout mach hnd steps { st1 with stopped := false } with
  | none => none
  | some (e, st2) => some (e, disable_timer st2)

/-! Concrete fixtures used to evaluate the embedding on explicit inputs.
The layout offsets are example values consistent with the spec's kernel
region ordering (GDT, IDT, interrupt stubs at low physical addresses); every
general theorem quantifies over the layout, so no result depends on them. -/

/-- Example memory layout for concrete evaluations. -/
def testLayout : MemoryLayout :=
  { GDT_ADDR := 0x1600, IDT_ADDR := 0x1800, INTR_ASM_ADDR := 0x3000 }

/-- Example machine that has never been remote-connected:
m_remote_base_address keeps its initialiser ~uint64_t(0). -/
def testMach : MachineDesc :=
  { page_tables := 0x4000, physbase := 0,
    m_remote_base_address := 2 ^ 64 - 1, m_heap_address := 0x500000 }

/-- Example machine that is remote-connected at a high-address window. -/
def remoteMach : MachineDesc :=
  { page_tables := 0x4000, physbase := 0,
    m_remote_base_address := 0x4000000000000000, m_heap_address := 0x500000 }

/-- Handlers that never call stop(). -/
def idHandlers : Handlers :=
  { system_call := fun _ s => s, on_output := fun _ _ s => s,
    on_input := fun _ _ s => s }

/-- Handlers whose syscall handler calls stop() on syscall number 60. -/
def stopOn60Handlers : Handlers :=
  { system_call := fun no s => no == 60 || s, on_output := fun _ _ s => s,
    on_input := fun _ _ s => s }

/-- Special registers matching testMach's integrity invariants. -/
def okSregs : KvmSregs :=
  { cr3 := 0x4000, gdt_base := 0x1600, idt_base := 0x1800, cs_dpl := 0, ss_dpl := 0 }

/-- A quiescent vCPU state: not stopped, no timer armed. -/
def tstSt0 : VCpuState :=
  { stopped := false, timer_ticks := 0, timer_was_triggered := false,
    hw_timer_armed := false }

/-- Helper: the IO dispatch never modifies timer_ticks or hw_timer_armed. -/
theorem dispatch_io_timer_inv (L : MemoryLayout) (M : MachineDesc) (H : Handlers)
    (inp : StepInput) (st : VCpuState) :
    (dispatch_io L M H inp st).2.1.timer_ticks = st.timer_ticks ∧
    (dispatch_io L M H inp st).2.1.hw_timer_armed = st.hw_timer_armed := by
  simp only [dispatch_io]
  split_ifs <;> simp

/-- Helper: the exit dispatch never modifies timer_ticks or hw_timer_armed. -/
theorem dispatch_exit_timer_inv (L : MemoryLayout) (M : MachineDesc) (H : Handlers)
    (inp : StepInput) (st : VCpuState) :
    (dispatch_exit L M H inp st).2.1.timer_ticks = st.timer_ticks ∧
    (dispatch_exit L M H inp st).2.1.hw_timer_armed = st.hw_timer_armed := by
  simp only [dispatch_exit]
  split_ifs <;> first
    | exact dispatch_io_timer_inv L M H inp st
    | simp

/-- Helper: run_once never modifies timer_ticks or hw_timer_armed. -/
theorem run_once_timer_inv (L : MemoryLayout) (M : MachineDesc) (H : Handlers)
    (inp : StepInput) (st : VCpuState) :
    (run_once L M H inp st).2.1.timer_ticks = st.timer_ticks ∧
    (run_once L M H inp st).2.1.hw_timer_armed = st.hw_timer_armed := by
  simp only [run_once]
  split_ifs <;> first
    | exact dispatch_exit_timer_inv L M H inp st
    | simp

/-- Helper: the IO dispatch never produces a timeout exception. -/
theorem dispatch_io_no_timeout (L : MemoryLayout) (M : MachineDesc) (H : Handlers)
    (inp : StepInput) (st : VCpuState) (m : String) (t : Nat) :
    (dispatch_io L M H inp st).1 ≠ RunOutcome.timeoutException m t := by
  simp only [dispatch_io]
  split_ifs <;> simp

/-- Helper: the exit dispatch never produces a timeout exception; timeouts
arise only from the two checks before it. -/
theorem dispatch_exit_no_timeout (L : MemoryLayout) (M : MachineDesc) (H : Handlers)
    (inp : StepInput) (st : VCpuState) (m : String) (t : Nat) :
    (dispatch_exit L M H inp st).1 ≠ RunOutcome.timeoutException m t := by
  simp only [dispatch_exit]
  split_ifs <;> first
    | exact dispatch_io_no_timeout L M H inp st m t
    | simp

/-- Helper: when the ioctl succeeded, no timeout fired and the integrity
check passes, run_once is exactly the exit dispatch. -/
theorem run_once_eq_dispatch (L : MemoryLayout) (M : MachineDesc) (H : Handlers)
    (inp : StepInput) (st : VCpuState)
    (hio : 0 ≤ inp.ioctl)
    (hto : ¬(st.timer_ticks ≠ 0 ∧ st.timer_was_triggered = true))
    (hcr3 : inp.sregs.cr3 = M.page_tables)
    (hgdt : inp.sregs.gdt_base = (M.physbase + L.GDT_ADDR) % U64_MOD)
    (hidt : inp.sregs.idt_base = (M.physbase + L.IDT_ADDR) % U64_MOD) :
    run_once L M H inp st = dispatch_exit L M H inp st := by
  have hneg : ¬ inp.ioctl < 0 := not_lt.mpr hio
  simp [run_once, hneg, hto, hcr3, hgdt, hidt]

/-- Helper: the loop of vCPU::run never modifies timer_ticks or
hw_timer_armed before it exits. -/
theorem runLoop_timer_inv (L : MemoryLayout) (M : MachineDesc) (H : Handlers) :
    ∀ (steps : List StepInput) (st : VCpuState) (r : RunExit) (st' : VCpuState),
      runLoop L M H steps st = some (r, st') →
      st'.timer_ticks = st.timer_ticks ∧ st'.hw_timer_armed = st.hw_timer_armed := by
  intro steps
  induction steps with
  | nil => intro st r st' h; simp [runLoop] at h
  | cons inp rest ih =>
    intro st r st' h
    have hinv := run_once_timer_inv L M H inp
      { st with timer_was_triggered := st.timer_was_triggered || inp.signal }
    simp only [runLoop] at h
    split at h
    all_goals rename_i heq
    all_goals rw [heq] at hinv
    · injection h with h1
      injection h1 with ha hb
      subst hb
      simpa using hinv
    · have hrec := ih _ _ _ h
      simp only at hinv
      refine ⟨hrec.1.trans ?_, hrec.2.trans ?_⟩
      · simpa using hinv.1
      · simpa using hinv.2
    · injection h with h1
      injection h1 with ha hb
      subst hb
      simpa using hinv
    · injection h with h1
      injection h1 with ha hb
      subst hb
      simpa using hinv

/-- Helper: disable_timer on a state with an armed software timer zeroes the
ticks, clears the flag and disarms the POSIX timer. -/
theorem disable_timer_spec (st : VCpuState) (h : st.timer_ticks ≠ 0) :
    disable_timer st =
      { st with timer_ticks := 0, timer_was_triggered := false,
                hw_timer_armed := false } := by
  simp [disable_timer, h]

/-- A port-0 OUT exit carrying syscall number 60. -/
def syscallInput : StepInput :=
  { ioctl := 0, errno := 0, signal := false,
    kvm_run := { exit_reason := KVM_EXIT_IO_NR, io_direction := KVM_EXIT_IO_OUT,
                 io_port := 0, io_data := 60, mmio_phys_addr := 0 },
    sregs := okSregs, regs := { rdi := 0, rip := 0x3005 } }

/-- An ioctl failure with errno EFAULT (14), not EINTR. -/
def eintrTimerInput : StepInput :=
  { ioctl := -1, errno := 14, signal := false,
    kvm_run := { exit_reason := 0, io_direction := 0, io_port := 0,
                 io_data := 0, mmio_phys_addr := 0 },
    sregs := okSregs, regs := { rdi := 0, rip := 0 } }

/-- A vCPU state whose software timer is armed at 100 ticks. -/
def armedSt : VCpuState :=
  { stopped := false, timer_ticks := 100, timer_was_triggered := false,
    hw_timer_armed := true }

/-- An exit whose special registers carry a drifted CR3. -/
def badCr3Input : StepInput :=
  { ioctl := 0, errno := 0, signal := false,
    kvm_run := { exit_reason := KVM_EXIT_IO_NR, io_direction := KVM_EXIT_IO_OUT,
                 io_port := 0, io_data := 60, mmio_phys_addr := 0 },
    sregs := { okSregs with cr3 := 0xDEAD }, regs := { rdi := 0, rip := 0x3005 } }

/-- A KVM_EXIT_MMIO exit faulting at guest physical 0x12345000. -/
def mmioInput : StepInput :=
  { ioctl := 0, errno := 0, signal := false,
    kvm_run := { exit_reason := KVM_EXIT_MMIO, io_direction := 0, io_port := 0,
                 io_data := 0, mmio_phys_addr := 0x12345000 },
    sregs := okSregs, regs := { rdi := 0, rip := 0 } }

/-- C1: for every KVM_EXIT_IO exit with direction OUT on port 0x0 that
reaches the exit dispatch, the 32-bit payload is a system-call number:
payload 0xFFFF sets stopped = true and returns 0; any other payload invokes
system_call with this vCPU and the payload, and returns 0 when the handler
left the vCPU stopped, else KVM_EXIT_IO. -/
theorem claim_C1_port0_syscall (L : MemoryLayout) (M : MachineDesc) (H : Handlers)
    (inp : StepInput) (st : VCpuState)
    (hio : 0 ≤ inp.ioctl)
    (hto : ¬(st.timer_ticks ≠ 0 ∧ st.timer_was_triggered = true))
    (hcr3 : inp.sregs.cr3 = M.page_tables)
    (hgdt : inp.sregs.gdt_base = (M.physbase + L.GDT_ADDR) % U64_MOD)
    (hidt : inp.sregs.idt_base = (M.physbase + L.IDT_ADDR) % U64_MOD)
    (hex : inp.kvm_run.exit_reason = KVM_EXIT_IO_NR)
    (hdir : inp.kvm_run.io_direction = KVM_EXIT_IO_OUT)
    (hport : inp.kvm_run.io_port = 0) :
    (inp.kvm_run.io_data % U32_MOD = 0xFFFF →
      run_once L M H inp st = (.ret 0, { st with stopped := true }, []))
    ∧ (inp.kvm_run.io_data % U32_MOD ≠ 0xFFFF →
      run_once L M H inp st =
        (if H.system_call (inp.kvm_run.io_data % U32_MOD) st.stopped = true
           then .ret 0 else .ret KVM_EXIT_IO_NR,
         { st with stopped := H.system_call (inp.kvm_run.io_data % U32_MOD) st.stopped },
         [.systemCall (inp.kvm_run.io_data % U32_MOD)])) := by
  rw [run_once_eq_dispatch L M H inp st hio hto hcr3 hgdt hidt]
  constructor
  · intro hd
    simp [dispatch_exit, dispatch_io, hex, hdir, hport, hd, KVM_EXIT_HLT,
      KVM_EXIT_DEBUG, KVM_EXIT_FAIL_ENTRY, KVM_EXIT_SHUTDOWN, KVM_EXIT_IO_NR,
      KVM_EXIT_IO_OUT]
  · intro hd
    simp only [dispatch_exit, dispatch_io, hex, hdir, hport, KVM_EXIT_HLT,
      KVM_EXIT_DEBUG, KVM_EXIT_FAIL_ENTRY, KVM_EXIT_SHUTDOWN, KVM_EXIT_IO_NR,
      KVM_EXIT_IO_OUT, KVM_EXIT_MMIO, KVM_EXIT_INTERNAL_ERROR]
    norm_num [hd]
    split_ifs <;> simp_all

/-- C1 witness: syscall number 60 with a handler that stops on 60. -/
theorem claim_C1_witness :
    (syscallInput.kvm_run.io_data % U32_MOD = 0xFFFF →
      run_once testLayout testMach stopOn60Handlers syscallInput tstSt0 =
        (.ret 0, { tstSt0 with stopped := true }, []))
    ∧ (syscallInput.kvm_run.io_data % U32_MOD ≠ 0xFFFF →
      run_once testLayout testMach stopOn60Handlers syscallInput tstSt0 =
        (if stopOn60Handlers.system_call (syscallInput.kvm_run.io_data % U32_MOD) tstSt0.stopped = true then .ret 0 else .ret KVM_EXIT_IO_NR,
         { tstSt0 with stopped := stopOn60Handlers.system_call (syscallInput.kvm_run.io_data % U32_MOD) tstSt0.stopped },
         [.systemCall (syscallInput.kvm_run.io_data % U32_MOD)])) :=
  claim_C1_port0_syscall testLayout testMach stopOn60Handlers syscallInput tstSt0
    (by decide) (by decide) (by decide) (by decide) (by decide) (by decide)
    (by decide) (by decide)

/-- C2 (amended): after every return from the KVM_RUN ioctl, run_once raises
a Timeout Exception iff the timer is armed and either the ioctl returned a
negative value (whatever errno holds) or the thread-local flag is set; the
exception always carries the configured timer_ticks value. -/
theorem claim_C2_timeout_iff (L : MemoryLayout) (M : MachineDesc) (H : Handlers)
    (inp : StepInput) (st : VCpuState) :
    ((run_once L M H inp st).1 =
        RunOutcome.timeoutException "Timeout Exception" st.timer_ticks
      ↔ st.timer_ticks ≠ 0 ∧ (inp.ioctl < 0 ∨ st.timer_was_triggered = true))
    ∧ (∀ m t, (run_once L M H inp st).1 = RunOutcome.timeoutException m t →
        m = "Timeout Exception" ∧ t = st.timer_ticks) := by
  constructor
  · simp only [run_once]
    split_ifs with h1 h2 h3 h4 h5
    · simp [h1, h2]
    · simp [h2]
    · simp [h2]
    · simp [h4.1, h4.2]
    · constructor
      · intro ht; simp at ht
      · rintro ⟨hne, hlt | hflag⟩
        · exact absurd hlt h1
        · exact absurd ⟨hne, hflag⟩ h4
    · constructor
      · intro ht
        exact absurd ht (dispatch_exit_no_timeout L M H inp st _ _)
      · rintro ⟨hne, hlt | hflag⟩
        · exact absurd hlt h1
        · exact absurd ⟨hne, hflag⟩ h4
  · intro m t ht
    have hnd := dispatch_exit_no_timeout L M H inp st m t
    simp only [run_once] at ht
    split_ifs at ht with h1 h2 h4
    · simp at ht
      exact ⟨ht.1.symm, ht.2.symm⟩
    · simp at ht
      exact ⟨ht.1.symm, ht.2.symm⟩
    · exact absurd ht hnd

/-- C2 witness: ioctl returned a negative value while the timer is armed, so
a Timeout Exception carrying the configured ticks is raised. -/
theorem claim_C2_witness :
    (run_once testLayout testMach idHandlers eintrTimerInput armedSt).1 =
      RunOutcome.timeoutException "Timeout Exception" 100 :=
  (claim_C2_timeout_iff testLayout testMach idHandlers eintrTimerInput armedSt).1.mpr
    (by decide)

/-- C2 counterexample: with ioctl = -1, errno = EFAULT (not EINTR), the timer
armed and the thread-local flag clear, run_once still raises the Timeout
Exception, although neither condition (a) nor condition (b) of the claim
holds at this input. -/
theorem claim_C2_cex :
    (run_once testLayout testMach idHandlers eintrTimerInput armedSt).1 =
      RunOutcome.timeoutException "Timeout Exception" 100
    ∧ eintrTimerInput.ioctl = -1
    ∧ eintrTimerInput.errno ≠ EINTR
    ∧ armedSt.timer_was_triggered = false
    ∧ armedSt.timer_ticks ≠ 0 := by
  decide

/-- C4: on every iteration that proceeds past the timeout checks, if CR3,
the GDT base or the IDT base differs from its expected value, run_once
aborts with the machine exception Kernel integrity loss detected before any
exit reason is dispatched (the only external call is the register dump). -/
theorem claim_C4_kernel_integrity (L : MemoryLayout) (M : MachineDesc) (H : Handlers)
    (inp : StepInput) (st : VCpuState)
    (hio : 0 ≤ inp.ioctl)
    (hto : ¬(st.timer_ticks ≠ 0 ∧ st.timer_was_triggered = true))
    (hg : M.physbase + L.GDT_ADDR < U64_MOD)
    (hi : M.physbase + L.IDT_ADDR < U64_MOD)
    (hbad : inp.sregs.cr3 ≠ M.page_tables
      ∨ inp.sregs.gdt_base ≠ M.physbase + L.GDT_ADDR
      ∨ inp.sregs.idt_base ≠ M.physbase + L.IDT_ADDR) :
    run_once L M H inp st =
      (.machineException "Kernel integrity loss detected" 0, st, [.printRegisters]) := by
  have hneg : ¬ inp.ioctl < 0 := not_lt.mpr hio
  have hcond : inp.sregs.cr3 ≠ M.page_tables
      ∨ inp.sregs.gdt_base ≠ (M.physbase + L.GDT_ADDR) % U64_MOD
      ∨ inp.sregs.idt_base ≠ (M.physbase + L.IDT_ADDR) % U64_MOD := by
    rw [Nat.mod_eq_of_lt hg, Nat.mod_eq_of_lt hi]
    exact hbad
  simp only [run_once, if_neg hneg, if_neg hto, if_pos hcond]

/-- C4 witness: a drifted CR3 aborts the run before dispatch. -/
theorem claim_C4_witness :
    run_once testLayout testMach idHandlers badCr3Input tstSt0 =
      (.machineException "Kernel integrity loss detected" 0, tstSt0, [.printRegisters]) :=
  claim_C4_kernel_integrity testLayout testMach idHandlers badCr3Input tstSt0
    (by decide) (by decide) (by decide) (by decide) (by decide)

/-- C7: every KVM_EXIT_MMIO exit that reaches the dispatch raises a machine
exception unconditionally, carrying the faulting guest physical address from
the exit structure. -/
theorem claim_C7_mmio_fatal (L : MemoryLayout) (M : MachineDesc) (H : Handlers)
    (inp : StepInput) (st : VCpuState)
    (hio : 0 ≤ inp.ioctl)
    (hto : ¬(st.timer_ticks ≠ 0 ∧ st.timer_was_triggered = true))
    (hcr3 : inp.sregs.cr3 = M.page_tables)
    (hgdt : inp.sregs.gdt_base = (M.physbase + L.GDT_ADDR) % U64_MOD)
    (hidt : inp.sregs.idt_base = (M.physbase + L.IDT_ADDR) % U64_MOD)
    (hex : inp.kvm_run.exit_reason = KVM_EXIT_MMIO) :
    run_once L M H inp st =
      (.machineException "Memory write outside physical memory (out of memory?)"
        inp.kvm_run.mmio_phys_addr, st, []) := by
  rw [run_once_eq_dispatch L M H inp st hio hto hcr3 hgdt hidt]
  simp [dispatch_exit, hex, KVM_EXIT_HLT, KVM_EXIT_DEBUG, KVM_EXIT_FAIL_ENTRY,
    KVM_EXIT_SHUTDOWN, KVM_EXIT_IO_NR, KVM_EXIT_MMIO, KVM_EXIT_INTERNAL_ERROR]

/-- C7 witness: the MMIO exit at 0x12345000 is fatal with that address. -/
theorem claim_C7_witness :
    run_once testLayout testMach idHandlers mmioInput tstSt0 =
      (.machineException "Memory write outside physical memory (out of memory?)"
        0x12345000, tstSt0, []) :=
  claim_C7_mmio_fatal testLayout testMach idHandlers mmioInput tstSt0
    (by decide) (by decide) (by decide) (by decide) (by decide) (by decide)

/-- C9: BRK_MAX is 1 MiB and the mmap region begins exactly BRK_MAX bytes
above the heap start. -/
theorem claim_C9_mmap_start (m : MachineDesc)
    (hof : m.m_heap_address + BRK_MAX < U64_MOD) :
    BRK_MAX = 0x100000 ∧ m.mmap_start = m.heap_address + BRK_MAX :=
  ⟨rfl, by
    simp [MachineDesc.mmap_start, MachineDesc.heap_address, Nat.mod_eq_of_lt hof]⟩

/-- C9 witness: concrete machine with heap at 0x500000. -/
theorem claim_C9_witness :
    BRK_MAX = 0x100000 ∧ testMach.mmap_start = testMach.heap_address + BRK_MAX :=
  claim_C9_mmap_start testMach (by decide)

/-- A port-0 OUT exit carrying the stop sentinel 0xFFFF. -/
def ffffInput : StepInput :=
  { ioctl := 0, errno := 0, signal := false,
    kvm_run := { exit_reason := KVM_EXIT_IO_NR, io_direction := KVM_EXIT_IO_OUT,
                 io_port := 0, io_data := 0xFFFF, mmio_phys_addr := 0 },
    sregs := okSregs, regs := { rdi := 0, rip := 0x3005 } }

/-- The final vCPU state of a timed run stopped by the 0xFFFF sentinel. -/
def finalC3St : VCpuState :=
  { stopped := true, timer_ticks := 0, timer_was_triggered := false,
    hw_timer_armed := false }

/-- An ioctl failure with errno EINTR while no timer is armed. -/
def eintrNoTimerInput : StepInput :=
  { ioctl := -1, errno := EINTR, signal := false,
    kvm_run := { exit_reason := 0, io_direction := 0, io_port := 0,
                 io_data := 0, mmio_phys_addr := 0 },
    sregs := okSregs, regs := { rdi := 0, rip := 0 } }

/-- A page-fault exit (port 0x8E) whose RIP 0x1000 lies below the start of
the interrupt-stub region (testLayout.INTR_ASM_ADDR = 0x3000). -/
def belowStubPfInput : StepInput :=
  { ioctl := 0, errno := 0, signal := false,
    kvm_run := { exit_reason := KVM_EXIT_IO_NR, io_direction := KVM_EXIT_IO_OUT,
                 io_port := 0x8E, io_data := 14, mmio_phys_addr := 0 },
    sregs := okSregs, regs := { rdi := 0x5000, rip := 0x1000 } }

/-- A page-fault exit whose RDI carries the remote-window tag bit 63. -/
def remotePfInput : StepInput :=
  { ioctl := 0, errno := 0, signal := false,
    kvm_run := { exit_reason := KVM_EXIT_IO_NR, io_direction := KVM_EXIT_IO_OUT,
                 io_port := 0x8E, io_data := 14, mmio_phys_addr := 0 },
    sregs := okSregs, regs := { rdi := 0xC000000000001234, rip := 0x3008 } }

/-- Helper: a KVM_EXIT_IO dispatch on port 0x8E (exception vector 14) is the
page-fault path: the security check, then the remote-window check, then the
local writable-page request. -/
theorem dispatch_io_pf (L : MemoryLayout) (M : MachineDesc) (H : Handlers)
    (inp : StepInput) (st : VCpuState)
    (hdir : inp.kvm_run.io_direction = KVM_EXIT_IO_OUT)
    (hport : inp.kvm_run.io_port = 0x8E) :
    dispatch_io L M H inp st =
      if (M.physbase + L.INTR_ASM_ADDR + 0x1000) % U64_MOD ≤ inp.regs.rip
          ∨ inp.sregs.cs_dpl ≠ 0 ∨ inp.sregs.ss_dpl ≠ 0 then
        (.machineException "Security violation" 14, st, [])
      else if M.is_remote_access (inp.regs.rdi &&& 0x7FFFFFFFFFFFF000) = true then
        (.ret KVM_EXIT_IO_NR, st,
          [.handleRemoteCall (inp.regs.rdi &&& 0x7FFFFFFFFFFFFFFF)])
      else
        (.ret KVM_EXIT_IO_NR, st,
          [.getWritablePage (inp.regs.rdi &&& 0x7FFFFFFFFFFFF000)
            (PDE64_USER ||| PDE64_RW) false]) := by
  simp [dispatch_io, hdir, hport, KVM_EXIT_IO_OUT]

/-- Helper: run_once on a page-fault exit that reaches the dispatch. -/
theorem run_once_pf (L : MemoryLayout) (M : MachineDesc) (H : Handlers)
    (inp : StepInput) (st : VCpuState)
    (hio : 0 ≤ inp.ioctl)
    (hto : ¬(st.timer_ticks ≠ 0 ∧ st.timer_was_triggered = true))
    (hcr3 : inp.sregs.cr3 = M.page_tables)
    (hgdt : inp.sregs.gdt_base = (M.physbase + L.GDT_ADDR) % U64_MOD)
    (hidt : inp.sregs.idt_base = (M.physbase + L.IDT_ADDR) % U64_MOD)
    (hex : inp.kvm_run.exit_reason = KVM_EXIT_IO_NR)
    (hdir : inp.kvm_run.io_direction = KVM_EXIT_IO_OUT)
    (hport : inp.kvm_run.io_port = 0x8E) :
    run_once L M H inp st =
      if (M.physbase + L.INTR_ASM_ADDR + 0x1000) % U64_MOD ≤ inp.regs.rip
          ∨ inp.sregs.cs_dpl ≠ 0 ∨ inp.sregs.ss_dpl ≠ 0 then
        (.machineException "Security violation" 14, st, [])
      else if M.is_remote_access (inp.regs.rdi &&& 0x7FFFFFFFFFFFF000) = true then
        (.ret KVM_EXIT_IO_NR, st,
          [.handleRemoteCall (inp.regs.rdi &&& 0x7FFFFFFFFFFFFFFF)])
      else
        (.ret KVM_EXIT_IO_NR, st,
          [.getWritablePage (inp.regs.rdi &&& 0x7FFFFFFFFFFFF000)
            (PDE64_USER ||| PDE64_RW) false]) := by
  rw [run_once_eq_dispatch L M H inp st hio hto hcr3 hgdt hidt]
  have hd : dispatch_exit L M H inp st = dispatch_io L M H inp st := by
    simp [dispatch_exit, hex, KVM_EXIT_HLT, KVM_EXIT_DEBUG, KVM_EXIT_FAIL_ENTRY,
      KVM_EXIT_SHUTDOWN, KVM_EXIT_IO_NR]
  rw [hd, dispatch_io_pf L M H inp st hdir hport]

/-- Helper: the bits of the page-fault address mask 0x7FFFFFFFFFFFF000,
which keeps exactly bits 12 to 62. -/
theorem pf_mask_testBit (i : Nat) :
    (0x7FFFFFFFFFFFF000 : Nat).testBit i = (decide (12 ≤ i) && decide (i < 63)) := by
  by_cases h : i < 64
  · interval_cases i <;> decide
  · rw [Nat.testBit_eq_false_of_lt]
    · have h63 : ¬ i < 63 := by omega
      simp [h63]
    · calc (0x7FFFFFFFFFFFF000 : Nat) < 2 ^ 64 := by norm_num
        _ ≤ 2 ^ i := Nat.pow_le_pow_right (by norm_num) (by omega)

/-- C3: for every run(ticks) with ticks > 0 that exits its loop, normally or
through an exception, the timer state is fully cleared on exit: timer_ticks
is 0, the thread-local flag is false and the POSIX timer is disarmed. -/
theorem claim_C3_run_disarms_timer (L : MemoryLayout) (M : MachineDesc) (H : Handlers)
    (ticks : Nat) (steps : List StepInput) (st0 : VCpuState) (r : RunExit) (st : VCpuState)
    (hpos : 0 < ticks)
    (hrun : run L M H ticks steps st0 = some (r, st)) :
    st.timer_ticks = 0 ∧ st.timer_was_triggered = false ∧ st.hw_timer_armed = false := by
  simp only [run] at hrun
  split at hrun
  · simp at hrun
  · rename_i e st2 heq
    injection hrun with h1
    injection h1 with ha hb
    subst hb
    have hticks := (runLoop_timer_inv L M H steps _ _ _ heq).1
    have hne : st2.timer_ticks ≠ 0 := by
      rw [hticks]
      simp only
      omega
    rw [disable_timer_spec st2 hne]
    exact ⟨rfl, rfl, rfl⟩

/-- C3 witness: a 100-tick run stopped by the 0xFFFF sentinel ends with the
timer disarmed and the flag clear. -/
theorem claim_C3_witness :
    finalC3St.timer_ticks = 0 ∧ finalC3St.timer_was_triggered = false ∧
      finalC3St.hw_timer_armed = false :=
  claim_C3_run_disarms_timer testLayout testMach idHandlers 100 [ffffInput] tstSt0
    RunExit.completed finalC3St (by decide) (by decide)

/-- C5 (amended): in the sanctioned page-fault path the code checks only the
upper end of the interrupt-stub region: the fault is recovered exactly when
RIP < physbase + INTR_ASM_ADDR + 0x1000 and CS.DPL = 0 and SS.DPL = 0 (a RIP
below the start of the stub region also passes the check); otherwise
run_once raises Security violation and makes no recovery call. -/
theorem claim_C5_security_check (L : MemoryLayout) (M : MachineDesc) (H : Handlers)
    (inp : StepInput) (st : VCpuState)
    (hio : 0 ≤ inp.ioctl)
    (hto : ¬(st.timer_ticks ≠ 0 ∧ st.timer_was_triggered = true))
    (hcr3 : inp.sregs.cr3 = M.page_tables)
    (hgdt : inp.sregs.gdt_base = (M.physbase + L.GDT_ADDR) % U64_MOD)
    (hidt : inp.sregs.idt_base = (M.physbase + L.IDT_ADDR) % U64_MOD)
    (hex : inp.kvm_run.exit_reason = KVM_EXIT_IO_NR)
    (hdir : inp.kvm_run.io_direction = KVM_EXIT_IO_OUT)
    (hport : inp.kvm_run.io_port = 0x8E) :
    ((M.physbase + L.INTR_ASM_ADDR + 0x1000) % U64_MOD ≤ inp.regs.rip
        ∨ inp.sregs.cs_dpl ≠ 0 ∨ inp.sregs.ss_dpl ≠ 0 →
      run_once L M H inp st = (.machineException "Security violation" 14, st, []))
    ∧ (inp.regs.rip < (M.physbase + L.INTR_ASM_ADDR + 0x1000) % U64_MOD →
       inp.sregs.cs_dpl = 0 → inp.sregs.ss_dpl = 0 →
      run_once L M H inp st =
        (if M.is_remote_access (inp.regs.rdi &&& 0x7FFFFFFFFFFFF000) = true then
          (.ret KVM_EXIT_IO_NR, st,
            [.handleRemoteCall (inp.regs.rdi &&& 0x7FFFFFFFFFFFFFFF)])
        else
          (.ret KVM_EXIT_IO_NR, st,
            [.getWritablePage (inp.regs.rdi &&& 0x7FFFFFFFFFFFF000)
              (PDE64_USER ||| PDE64_RW) false]))) := by
  rw [run_once_pf L M H inp st hio hto hcr3 hgdt hidt hex hdir hport]
  constructor
  · intro hsec
    rw [if_pos hsec]
  · intro hrip hcs hss
    have hsec : ¬((M.physbase + L.INTR_ASM_ADDR + 0x1000) % U64_MOD ≤ inp.regs.rip
        ∨ inp.sregs.cs_dpl ≠ 0 ∨ inp.sregs.ss_dpl ≠ 0) := by
      push_neg
      refine ⟨?_, hcs, hss⟩
      omega
    rw [if_neg hsec]

/-- C5 witness: a fault at CPL 0 with RIP inside the checked range raises no
exception; a fault with CS.DPL nonzero would raise Security violation. -/
theorem claim_C5_witness :
    ((testMach.physbase + testLayout.INTR_ASM_ADDR + 0x1000) % U64_MOD ≤ remotePfInput.regs.rip
        ∨ remotePfInput.sregs.cs_dpl ≠ 0 ∨ remotePfInput.sregs.ss_dpl ≠ 0 →
      run_once testLayout testMach idHandlers remotePfInput tstSt0 =
        (.machineException "Security violation" 14, tstSt0, []))
    ∧ (remotePfInput.regs.rip < (testMach.physbase + testLayout.INTR_ASM_ADDR + 0x1000) % U64_MOD →
       remotePfInput.sregs.cs_dpl = 0 → remotePfInput.sregs.ss_dpl = 0 →
      run_once testLayout testMach idHandlers remotePfInput tstSt0 =
        (if testMach.is_remote_access (remotePfInput.regs.rdi &&& 0x7FFFFFFFFFFFF000) = true then
          (.ret KVM_EXIT_IO_NR, tstSt0,
            [.handleRemoteCall (remotePfInput.regs.rdi &&& 0x7FFFFFFFFFFFFFFF)])
        else
          (.ret KVM_EXIT_IO_NR, tstSt0,
            [.getWritablePage (remotePfInput.regs.rdi &&& 0x7FFFFFFFFFFFF000)
              (PDE64_USER ||| PDE64_RW) false]))) :=
  claim_C5_security_check testLayout testMach idHandlers remotePfInput tstSt0
    (by decide) (by decide) (by decide) (by decide) (by decide) (by decide)
    (by decide) (by decide)

/-- C5 counterexample: RIP 0x1000 lies outside the interrupt-stub region
(which starts at physbase + INTR_ASM_ADDR = 0x3000), both DPLs are zero, yet
the fault is recovered with a local page allocation and no Security
violation is raised, contradicting the claim that recovery happens only when
RIP lies within the stub region. -/
theorem claim_C5_cex :
    run_once testLayout testMach idHandlers belowStubPfInput tstSt0 =
      (.ret KVM_EXIT_IO_NR, tstSt0,
        [.getWritablePage 0x5000 (PDE64_USER ||| PDE64_RW) false])
    ∧ belowStubPfInput.regs.rip < testMach.physbase + testLayout.INTR_ASM_ADDR
    ∧ belowStubPfInput.sregs.cs_dpl = 0 ∧ belowStubPfInput.sregs.ss_dpl = 0 := by
  decide

/-- C6: in the sanctioned page-fault path the fault address is RDI with
bit 63 and bits 0 to 11 masked off; a fault address in the remote window
dispatches to handle_remote_call with RDI's top bit cleared and allocates
nothing locally; otherwise a writable page is requested at the masked
address with flags PDE64_USER or-ed with PDE64_RW and zero = false, and
control returns to the guest with KVM_EXIT_IO. -/
theorem claim_C6_pf_dispatch (L : MemoryLayout) (M : MachineDesc) (H : Handlers)
    (inp : StepInput) (st : VCpuState)
    (hio : 0 ≤ inp.ioctl)
    (hto : ¬(st.timer_ticks ≠ 0 ∧ st.timer_was_triggered = true))
    (hcr3 : inp.sregs.cr3 = M.page_tables)
    (hgdt : inp.sregs.gdt_base = (M.physbase + L.GDT_ADDR) % U64_MOD)
    (hidt : inp.sregs.idt_base = (M.physbase + L.IDT_ADDR) % U64_MOD)
    (hex : inp.kvm_run.exit_reason = KVM_EXIT_IO_NR)
    (hdir : inp.kvm_run.io_direction = KVM_EXIT_IO_OUT)
    (hport : inp.kvm_run.io_port = 0x8E)
    (hrip : inp.regs.rip < (M.physbase + L.INTR_ASM_ADDR + 0x1000) % U64_MOD)
    (hcs : inp.sregs.cs_dpl = 0) (hss : inp.sregs.ss_dpl = 0) :
    (∀ i, (inp.regs.rdi &&& 0x7FFFFFFFFFFFF000).testBit i =
        (inp.regs.rdi.testBit i && (decide (12 ≤ i) && decide (i < 63))))
    ∧ (M.is_remote_access (inp.regs.rdi &&& 0x7FFFFFFFFFFFF000) = true →
      run_once L M H inp st =
        (.ret KVM_EXIT_IO_NR, st,
          [.handleRemoteCall (inp.regs.rdi &&& 0x7FFFFFFFFFFFFFFF)]))
    ∧ (M.is_remote_access (inp.regs.rdi &&& 0x7FFFFFFFFFFFF000) = false →
      run_once L M H inp st =
        (.ret KVM_EXIT_IO_NR, st,
          [.getWritablePage (inp.regs.rdi &&& 0x7FFFFFFFFFFFF000)
            (PDE64_USER ||| PDE64_RW) false])) := by
  have hro := run_once_pf L M H inp st hio hto hcr3 hgdt hidt hex hdir hport
  have hsec : ¬((M.physbase + L.INTR_ASM_ADDR + 0x1000) % U64_MOD ≤ inp.regs.rip
      ∨ inp.sregs.cs_dpl ≠ 0 ∨ inp.sregs.ss_dpl ≠ 0) := by
    push_neg
    refine ⟨?_, hcs, hss⟩
    omega
  rw [if_neg hsec] at hro
  refine ⟨?_, ?_, ?_⟩
  · intro i
    rw [Nat.testBit_land, pf_mask_testBit]
  · intro hr
    rw [hro, if_pos hr]
  · intro hr
    rw [hro, if_neg (by simp [hr])]

/-- C6 witness: a remote-tagged RDI on a remote-connected machine dispatches
to handle_remote_call with the top bit cleared. -/
theorem claim_C6_witness :
    run_once testLayout remoteMach idHandlers remotePfInput tstSt0 =
      (.ret KVM_EXIT_IO_NR, tstSt0, [.handleRemoteCall 0x4000000000001234]) :=
  (claim_C6_pf_dispatch testLayout remoteMach idHandlers remotePfInput tstSt0
    (by decide) (by decide) (by decide) (by decide) (by decide) (by decide)
    (by decide) (by decide) (by decide) (by decide) (by decide)).2.1 (by decide)

/-- C10: on a machine never remote-connected, m_remote_base_address is
2^64 - 1, so is_remote_access holds only for that single address; the masked
page-fault address never exceeds 2^63 - 4096, hence the remote branch is
unreachable and every sanctioned page fault resolves through
get_writable_page. -/
theorem claim_C10_never_remote (L : MemoryLayout) (M : MachineDesc) (H : Handlers)
    (inp : StepInput) (st : VCpuState)
    (hbase : M.m_remote_base_address = 2 ^ 64 - 1)
    (hio : 0 ≤ inp.ioctl)
    (hto : ¬(st.timer_ticks ≠ 0 ∧ st.timer_was_triggered = true))
    (hcr3 : inp.sregs.cr3 = M.page_tables)
    (hgdt : inp.sregs.gdt_base = (M.physbase + L.GDT_ADDR) % U64_MOD)
    (hidt : inp.sregs.idt_base = (M.physbase + L.IDT_ADDR) % U64_MOD)
    (hex : inp.kvm_run.exit_reason = KVM_EXIT_IO_NR)
    (hdir : inp.kvm_run.io_direction = KVM_EXIT_IO_OUT)
    (hport : inp.kvm_run.io_port = 0x8E)
    (hrip : inp.regs.rip < (M.physbase + L.INTR_ASM_ADDR + 0x1000) % U64_MOD)
    (hcs : inp.sregs.cs_dpl = 0) (hss : inp.sregs.ss_dpl = 0) :
    (∀ a, a < 2 ^ 64 → (M.is_remote_access a = true ↔ a = 2 ^ 64 - 1))
    ∧ inp.regs.rdi &&& 0x7FFFFFFFFFFFF000 ≤ 2 ^ 63 - 4096
    ∧ run_once L M H inp st =
        (.ret KVM_EXIT_IO_NR, st,
          [.getWritablePage (inp.regs.rdi &&& 0x7FFFFFFFFFFFF000)
            (PDE64_USER ||| PDE64_RW) false]) := by
  have hp64 : (2 : Nat) ^ 64 = 18446744073709551616 := by norm_num
  have hp63 : (2 : Nat) ^ 63 = 9223372036854775808 := by norm_num
  have hmaskle : inp.regs.rdi &&& 0x7FFFFFFFFFFFF000 ≤ 0x7FFFFFFFFFFFF000 :=
    Nat.and_le_right
  have hmask : inp.regs.rdi &&& 0x7FFFFFFFFFFFF000 ≤ 2 ^ 63 - 4096 := by
    rw [hp63]
    omega
  refine ⟨?_, hmask, ?_⟩
  · intro a ha
    simp only [MachineDesc.is_remote_access, hbase, decide_eq_true_eq]
    rw [hp64] at ha ⊢
    omega
  · have hro := run_once_pf L M H inp st hio hto hcr3 hgdt hidt hex hdir hport
    have hsec : ¬((M.physbase + L.INTR_ASM_ADDR + 0x1000) % U64_MOD ≤ inp.regs.rip
        ∨ inp.sregs.cs_dpl ≠ 0 ∨ inp.sregs.ss_dpl ≠ 0) := by
      push_neg
      refine ⟨?_, hcs, hss⟩
      omega
    rw [if_neg hsec] at hro
    have hnr : M.is_remote_access (inp.regs.rdi &&& 0x7FFFFFFFFFFFF000) = false := by
      simp only [MachineDesc.is_remote_access, hbase, decide_eq_false_iff_not]
      rw [hp63] at hmask
      rw [hp64]
      omega
    rw [hro, if_neg (by simp [hnr])]

/-- C10 witness: the sanctioned fault at RDI 0x5000 on the never-connected
machine resolves through get_writable_page. -/
theorem claim_C10_witness :
    (∀ a, a < 2 ^ 64 → (testMach.is_remote_access a = true ↔ a = 2 ^ 64 - 1))
    ∧ belowStubPfInput.regs.rdi &&& 0x7FFFFFFFFFFFF000 ≤ 2 ^ 63 - 4096
    ∧ run_once testLayout testMach idHandlers belowStubPfInput tstSt0 =
        (.ret KVM_EXIT_IO_NR, tstSt0,
          [.getWritablePage (belowStubPfInput.regs.rdi &&& 0x7FFFFFFFFFFFF000)
            (PDE64_USER ||| PDE64_RW) false]) :=
  claim_C10_never_remote testLayout testMach idHandlers belowStubPfInput tstSt0
    (by decide) (by decide) (by decide) (by decide) (by decide) (by decide)
    (by decide) (by decide) (by decide) (by decide) (by decide) (by decide)

/-- C8 (amended): a negative KVM_RUN result with no timer armed and errno
EINTR raises no exception and returns KVM_EXIT_UNKNOWN, whose value is 0, so
the while loop of vCPU::run terminates as if the guest had stopped rather
than re-entering guest execution; any other errno in that state raises the
machine exception KVM_RUN failed. -/
theorem claim_C8_eintr_unknown (L : MemoryLayout) (M : MachineDesc) (H : Handlers)
    (inp : StepInput) (st : VCpuState) (rest : List StepInput)
    (hneg : inp.ioctl < 0) (hticks : st.timer_ticks = 0) :
    (inp.errno = EINTR →
      run_once L M H inp st = (.ret KVM_EXIT_UNKNOWN, st, [])
      ∧ KVM_EXIT_UNKNOWN = 0
      ∧ runLoop L M H (inp :: rest) st =
          some (.completed,
            { st with timer_was_triggered := st.timer_was_triggered || inp.signal }))
    ∧ (inp.errno ≠ EINTR →
      run_once L M H inp st = (.machineException "KVM_RUN failed" 0, st, [])) := by
  constructor
  · intro he
    have hr : run_once L M H inp st = (.ret KVM_EXIT_UNKNOWN, st, []) := by
      simp [run_once, hneg, hticks, he]
    refine ⟨hr, rfl, ?_⟩
    have hr1 : run_once L M H inp
        { st with timer_was_triggered := st.timer_was_triggered || inp.signal }
        = (.ret KVM_EXIT_UNKNOWN,
           { st with timer_was_triggered := st.timer_was_triggered || inp.signal }, []) := by
      simp [run_once, hneg, hticks, he]
    simp only [runLoop]
    rw [hr1]
    rfl
  · intro hne
    simp [run_once, hneg, hticks, hne]

/-- C8 witness: EINTR with no timer returns KVM_EXIT_UNKNOWN and ends the
loop; a different errno raises KVM_RUN failed. -/
theorem claim_C8_witness :
    (eintrNoTimerInput.errno = EINTR →
      run_once testLayout testMach idHandlers eintrNoTimerInput tstSt0 =
        (.ret KVM_EXIT_UNKNOWN, tstSt0, [])
      ∧ KVM_EXIT_UNKNOWN = 0
      ∧ runLoop testLayout testMach idHandlers (eintrNoTimerInput :: [mmioInput]) tstSt0 =
          some (.completed,
            { tstSt0 with timer_was_triggered :=
                tstSt0.timer_was_triggered || eintrNoTimerInput.signal }))
    ∧ (eintrNoTimerInput.errno ≠ EINTR →
      run_once testLayout testMach idHandlers eintrNoTimerInput tstSt0 =
        (.machineException "KVM_RUN failed" 0, tstSt0, [])) :=
  claim_C8_eintr_unknown testLayout testMach idHandlers eintrNoTimerInput tstSt0
    [mmioInput] (by decide) (by decide)

/-- C8 counterexample: KVM_EXIT_UNKNOWN is 0, so after the EINTR-without-
timer step the loop terminates with a normal completion instead of
re-entering guest execution: the queued second observation, which on its own
raises the MMIO machine exception, is never dispatched. -/
theorem claim_C8_cex :
    KVM_EXIT_UNKNOWN = 0
    ∧ runLoop testLayout testMach idHandlers [eintrNoTimerInput, mmioInput] tstSt0 =
        some (.completed, tstSt0)
    ∧ runLoop testLayout testMach idHandlers [mmioInput] tstSt0 =
        some (.excMachine "Memory write outside physical memory (out of memory?)"
          0x12345000, tstSt0) := by
  decide

end TinyKVM
